import Mathlib

/-!
Verification of the Portico bridge service (server/bridge) against its
natural-language specification.

The bridge translates Supabase change-notification payloads into typed
requests for the engine backend.  The repository holds two iterations of
the service side by side:

* the gRPC iteration: `src/lib.py` (`BridgeClient`, `create_signal_request`,
  `create_sync_payload`, `sanitize_data`, `handle_signal_insert`) driven by
  `src/main.py`;
* the stream-transport iteration: `main.py` (`EngineCommunicator`,
  `SupabaseHandler.handle_new_signal`).

Python values are embedded as the inductive `PyVal`; dictionaries are
association lists keyed by strings (the source functions annotate their
payload parameters as `dict[str, Any]`).  Fallible Python code (code paths
that raise and are caught by the enclosing `try`) is embedded as `Option`.
The protobuf-generated module `bridge_message_pb2` is not under `src/`;
the message and enum shapes it provides are modelled from the spec and the
repository tests, and each such definition is marked `Modelled from the
spec:` in its doc comment.
-/

/-- Embedding of the Python values the bridge manipulates: `None`, booleans,
integers, strings, lists and string-keyed dictionaries (the payloads are
JSON-shaped, and every source signature types them `dict[str, Any]`). -/
inductive PyVal where
  | none
  | bool (b : Bool)
  | int (n : Int)
  | str (s : String)
  | list (xs : List PyVal)
  | dict (kvs : List (String × PyVal))

/-- Python truthiness (`if not record:` and friends): `None`, `False`, `0`,
the empty string, the empty list and the empty dict are falsy. -/
def pyTruthy : PyVal → Bool
  | PyVal.none => false
  | PyVal.bool b => b
  | PyVal.int n => n != 0
  | PyVal.str s => !s.isEmpty
  | PyVal.list xs => !xs.isEmpty
  | PyVal.dict kvs => !kvs.isEmpty

/-- Key lookup in an embedded Python dict (first occurrence wins; real dicts
have unique keys). -/
def lookupKey (kvs : List (String × PyVal)) (k : String) : Option PyVal :=
  (kvs.find? (fun p => p.1 == k)).map (fun p => p.2)

/-- `pydian.get(record, key, default)` on a single key: the default is
returned when the source is not a dict, the key is absent, or the stored
value is `None`. -/
def recordGet (v : PyVal) (k : String) (dflt : PyVal) : PyVal :=
  match v with
  | PyVal.dict kvs =>
    match lookupKey kvs k with
    | some PyVal.none => dflt
    | some w => w
    | Option.none => dflt
  | _ => dflt

/-- `pydian.get(data, "data.record", {})` from `create_signal_request`
(src/lib.py line 140): the dotted path walks nested dicts and yields the
empty dict on any miss. -/
def getRecord (data : List (String × PyVal)) : PyVal :=
  match lookupKey data "data" with
  | some (PyVal.dict kvs) =>
    match lookupKey kvs "record" with
    | some PyVal.none => PyVal.dict []
    | some v => v
    | Option.none => PyVal.dict []
  | _ => PyVal.dict []

/-- Python `dict.get(key, default)`: unlike `pydian.get`, a stored `None`
is returned as-is; the default applies only when the key is absent. -/
def dictGetPy (kvs : List (String × PyVal)) (k : String) (dflt : PyVal) : PyVal :=
  (lookupKey kvs k).getD dflt

/-- The null character `"\u0000"` removed by `sanitize_data`. -/
def nullChar : Char := Char.ofNat 0

/-- `data.replace("\u0000", "")` on a string (src/lib.py line 243). -/
def stripNulls (s : String) : String :=
  String.mk (s.data.filter (fun c => c != nullChar))

mutual
/-- `sanitize_data` (src/lib.py lines 240-248): strings lose their null
characters, dicts and lists recurse over their values, everything else
passes through.  Dict keys are not touched by the source. -/
def sanitize_data : PyVal → PyVal
  | PyVal.str s => PyVal.str (stripNulls s)
  | PyVal.dict kvs => PyVal.dict (sanitizeDict kvs)
  | PyVal.list xs => PyVal.list (sanitizeList xs)
  | PyVal.none => PyVal.none
  | PyVal.bool b => PyVal.bool b
  | PyVal.int n => PyVal.int n

/-- The list comprehension `[sanitize_data(v) for v in data]`. -/
def sanitizeList : List PyVal → List PyVal
  | [] => []
  | v :: rest => sanitize_data v :: sanitizeList rest

/-- The dict comprehension `{k: sanitize_data(v) for k, v in data.items()}`. -/
def sanitizeDict : List (String × PyVal) → List (String × PyVal)
  | [] => []
  | (k, v) :: rest => (k, sanitize_data v) :: sanitizeDict rest
end

/-- Modelled from the spec: the `SignalType` protobuf enum symbols
(`RUN`, `SYNC`, `FYI`), per spec section 4.2 and the repository tests;
the proto file itself is not under src/. -/
inductive SignalType where
  | RUN
  | SYNC
  | FYI
deriving DecidableEq

/-- Modelled from the spec: the `SyncScope` protobuf enum symbols
(`ALL`, `SPECIFIC`), per the spec data model and the repository tests. -/
inductive SyncScope where
  | ALL
  | SPECIFIC
deriving DecidableEq

/-- Modelled from the spec: the `EntityType` protobuf enum symbols; the
spec and the repository tests name `AGENT` and `STEP`. -/
inductive EntityType where
  | AGENT
  | STEP
deriving DecidableEq

/-- Python `str.upper()` as applied to the enum-name fields: per-character
ASCII uppercasing (`Char.toUpper`), which coincides with Python on the
ASCII symbol names involved. -/
def pyUpper (s : String) : String := String.mk (s.data.map Char.toUpper)

/-- `pb2.SignalType.Value(s)`: succeeds exactly on the closed symbol
table, raises `ValueError` otherwise (embedded as `Option.none`). -/
def parseSignalType (s : String) : Option SignalType :=
  if s = "RUN" then some SignalType.RUN
  else if s = "SYNC" then some SignalType.SYNC
  else if s = "FYI" then some SignalType.FYI
  else Option.none

/-- `pb2.SyncScope.Value(s)`. -/
def parseSyncScope (s : String) : Option SyncScope :=
  if s = "ALL" then some SyncScope.ALL
  else if s = "SPECIFIC" then some SyncScope.SPECIFIC
  else Option.none

/-- `pb2.EntityType.Value(s)`. -/
def parseEntityType (s : String) : Option EntityType :=
  if s = "AGENT" then some EntityType.AGENT
  else if s = "STEP" then some EntityType.STEP
  else Option.none

/-- Modelled from the spec: the `SyncPayload` protobuf message constructed
by `create_sync_payload` (scope, repeated entity uuids, repeated entity
types). -/
structure SyncPayload where
  scope : SyncScope
  entity_uuids : List String
  entity_types : List EntityType

/-- Modelled from the spec: the `SignalRequest` protobuf message.  The
fields set by `create_signal_request` are `signal_id`, `agent_id`,
`signal_type` and one payload field; the envelope string fields
`global_uuid` (the correlation id) and `user_requested_uuid` exist per the
spec data model and the repository tests and carry the proto3 default,
the empty string, when the constructor leaves them unset. -/
structure SignalRequest where
  signal_id : PyVal
  agent_id : PyVal
  signal_type : SignalType
  global_uuid : String := ""
  user_requested_uuid : String := ""
  run_data : Option PyVal := Option.none
  sync : Option SyncPayload := Option.none
  fyi_data : Option PyVal := Option.none

/-- Modelled from the spec: the engine response message (`success`,
`message`, `runtime_session_uuid`), per the spec data model and the
repository tests. -/
structure EngineResponse where
  success : Bool
  message : String := ""
  runtime_session_uuid : String := ""

/-- Python iteration `for x in v` as used on the sync payload fields:
lists yield elements, strings yield their characters, dicts yield their
keys; other values raise `TypeError` (embedded as `Option.none`). -/
def pyIter (v : PyVal) : Option (List PyVal) :=
  match v with
  | PyVal.list xs => some xs
  | PyVal.str s => some (s.data.map (fun c => PyVal.str (String.mk [c])))
  | PyVal.dict kvs => some (kvs.map (fun kv => PyVal.str kv.1))
  | _ => Option.none

/-- A single-quote character as a string, for the Python repr rendering. -/
def squote : String := String.mk [Char.ofNat 39]

mutual
/-- Python `str(x)` for the value forms that occur (`str(uuid_val)` in
`create_sync_payload`).  Character escaping inside nested reprs is not
modelled. -/
def pyStr : PyVal → String
  | PyVal.str s => s
  | v => pyRepr v

/-- Python `repr(x)` as invoked by `str` on containers. -/
def pyRepr : PyVal → String
  | PyVal.none => "None"
  | PyVal.bool true => "True"
  | PyVal.bool false => "False"
  | PyVal.int n => toString n
  | PyVal.str s => squote ++ s ++ squote
  | PyVal.list xs => "[" ++ String.intercalate ", " (pyReprList xs) ++ "]"
  | PyVal.dict kvs => "\x7b" ++ String.intercalate ", " (pyReprDict kvs) ++ "\x7d"

/-- Reprs of the elements of a list. -/
def pyReprList : List PyVal → List String
  | [] => []
  | v :: rest => pyRepr v :: pyReprList rest

/-- Reprs of the entries of a dict. -/
def pyReprDict : List (String × PyVal) → List String
  | [] => []
  | (k, v) :: rest => (squote ++ k ++ squote ++ ": " ++ pyRepr v) :: pyReprDict rest
end

/-- The `for et_str in entity_types_str` loop of `create_sync_payload`
(src/lib.py lines 225-231): each string element is upper-cased and matched
against the `EntityType` table, unmatched elements are logged and dropped,
and a non-string element raises `AttributeError` at `.upper()` (embedded
as `Option.none` for the whole call, since the exception propagates). -/
def collectEntityTypes : List PyVal → Option (List EntityType)
  | [] => some []
  | PyVal.str s :: rest =>
    match parseEntityType (pyUpper s) with
    | some et => (collectEntityTypes rest).map (fun l => et :: l)
    | Option.none => collectEntityTypes rest
  | _ :: _ => Option.none

/-- `create_sync_payload` (src/lib.py lines 207-236).  The scope string is
upper-cased and matched; an unmatched value is logged and silently
replaced by `SyncScope.ALL` (line 217).  A non-string scope raises at
`.upper()`; iterating a non-iterable `entity_uuids` or `entity_types`
raises; both are embedded as `Option.none` since `create_signal_request`
catches them and returns `None`. -/
def create_sync_payload (data : PyVal) : Option SyncPayload :=
  match recordGet data "scope" (PyVal.str "ALL") with
  | PyVal.str scope_str =>
    let scope := (parseSyncScope (pyUpper scope_str)).getD SyncScope.ALL
    match pyIter (recordGet data "entity_uuids" (PyVal.list [])) with
    | some us =>
      let entity_uuids := us.map pyStr
      match pyIter (recordGet data "entity_types" (PyVal.list [])) with
      | some ets =>
        match collectEntityTypes ets with
        | some entity_types =>
          some { scope := scope, entity_uuids := entity_uuids, entity_types := entity_types }
        | Option.none => Option.none
      | Option.none => Option.none
    | Option.none => Option.none
  | _ => Option.none

/-- `create_signal_request` (src/lib.py lines 136-204).  The embedded JSON
decoder `dec` stands for `json.loads`; a failed decode (`Option.none`)
degrades `initial_data` to the empty dict (lines 173-178).  Exceptions
caught by the enclosing `try` are embedded as `Option.none`.  Note that
the constructed request copies only `signal_id`, `agent_id` and
`signal_type` from the record (lines 181-185); the envelope uuid fields
keep their proto3 defaults. -/
def create_signal_request (dec : String → Option PyVal)
    (data : List (String × PyVal)) : Option SignalRequest :=
  let record := getRecord data
  if pyTruthy record then
    let signal_id := recordGet record "id" (PyVal.int 0)
    let agent_id := recordGet record "agent_id" (PyVal.int 0)
    match recordGet record "signal_type" (PyVal.str "") with
    | PyVal.str st =>
      let signal_type_str := pyUpper st
      if signal_type_str.isEmpty then Option.none
      else
        match parseSignalType signal_type_str with
        | Option.none => Option.none
        | some signal_type =>
          let initial_data :=
            match recordGet record "initial_data" (PyVal.dict []) with
            | PyVal.str s => (dec s).getD (PyVal.dict [])
            | v => v
          match signal_type with
          | SignalType.RUN =>
            some { signal_id := signal_id, agent_id := agent_id,
                   signal_type := signal_type,
                   run_data := some (PyVal.dict [("data", initial_data)]) }
          | SignalType.SYNC =>
            match create_sync_payload initial_data with
            | some sp =>
              some { signal_id := signal_id, agent_id := agent_id,
                     signal_type := signal_type, sync := some sp }
            | Option.none => Option.none
          | SignalType.FYI =>
            some { signal_id := signal_id, agent_id := agent_id,
                   signal_type := signal_type,
                   fyi_data := some (PyVal.dict [("data", initial_data)]) }
    | _ => Option.none
  else Option.none

/-- Instrumented outcome of `BridgeClient.send_signal`: the returned
boolean plus how many times the translation (`create_signal_request`),
the `ProcessSignal` exchange (`process_signal`) and the `InitServer`
exchange (`initialize_server`) were invoked. -/
structure SendOutcome where
  result : Bool
  initCalls : Nat
  translateCalls : Nat
  processCalls : Nat
deriving DecidableEq

/-- `BridgeClient.send_signal` (src/lib.py lines 95-127).  `engine` stands
for the `ProcessSignal` stub exchange (`process_signal` returns `None` on
a missing stub or any gRPC error); `init` stands for the result of
`initialize_server` (likewise `None` on failure).  A payload containing
the key `"server-init"` is routed to `initialize_server` and the call
returns `response is not None and getattr(response, "success", False)`;
otherwise the payload is translated, and a `None` request or a
non-success response yields `False`. -/
def send_signal (dec : String → Option PyVal)
    (engine : SignalRequest → Option EngineResponse)
    (init : Option EngineResponse)
    (data : List (String × PyVal)) (_meta : String) : SendOutcome :=
  if (lookupKey data "server-init").isSome then
    { result := match init with
                | some r => r.success
                | Option.none => false,
      initCalls := 1, translateCalls := 0, processCalls := 0 }
  else
    match create_signal_request dec data with
    | some req =>
      match engine req with
      | some resp =>
        { result := resp.success, initCalls := 0, translateCalls := 1, processCalls := 1 }
      | Option.none =>
        { result := false, initCalls := 0, translateCalls := 1, processCalls := 1 }
    | Option.none =>
      { result := false, initCalls := 0, translateCalls := 1, processCalls := 0 }

/-- A write-back issued to the record-update collaborator (the Supabase
update helpers of `SupabaseHandler` in main.py): `update_signal_status`,
`update_signal_session` (attachSession) and `update_signal_error`
(markFailed). -/
inductive DbCall where
  | updateStatus (signal_id : PyVal) (status : String)
  | updateSession (signal_id : PyVal) (session_id : PyVal)
  | updateError (signal_id : PyVal) (message : PyVal)

/-- Whether a write-back is a markFailed (`update_signal_error`) call. -/
def isErrCall : DbCall → Bool
  | DbCall.updateError _ _ => true
  | _ => false

/-- Number of markFailed write-backs in a call trace. -/
def countErr (l : List DbCall) : Nat := (l.filter isErrCall).length

/-- The response-interpretation tail of `SupabaseHandler.handle_new_signal`
(main.py lines 154-163).  `resp` is the parsed JSON the engine exchange
produced (`None` on connect/send/receive failure).  A truthy dict whose
`status` is `"success"` attaches the session; any other truthy dict marks
the signal failed with `response.get("message")`; a falsy or absent
response marks it failed with the fixed transport message.  A truthy
non-dict response raises at `.get` and the exception is caught and
logged, leaving no further write-back. -/
def respOutcome (signal_id : PyVal) (resp : Option PyVal) : List DbCall :=
  let rv := resp.getD PyVal.none
  if pyTruthy rv then
    match rv with
    | PyVal.dict rd =>
      match dictGetPy rd "status" PyVal.none with
      | PyVal.str s =>
        if s = "success" then
          [DbCall.updateSession signal_id (dictGetPy rd "session_id" PyVal.none)]
        else
          [DbCall.updateError signal_id (dictGetPy rd "message" PyVal.none)]
      | _ => [DbCall.updateError signal_id (dictGetPy rd "message" PyVal.none)]
    | _ => []
  else
    [DbCall.updateError signal_id (PyVal.str "Failed to communicate with engine")]

/-- `SupabaseHandler.handle_new_signal` (main.py lines 127-166), returning
the trace of record write-backs.  The engine exchange is abstracted as the
`resp` parameter; the request dict built on lines 145-152 does not affect
which write-backs occur.  A missing or falsy `id` or `agent_id` logs and
returns with no write-back; otherwise the status is first set to
PROCESSING and the response outcome follows. -/
def handle_new_signal (payload : List (String × PyVal)) (resp : Option PyVal) : List DbCall :=
  match dictGetPy payload "new" (PyVal.dict []) with
  | PyVal.dict sd =>
    let signal_id := dictGetPy sd "id" PyVal.none
    let agent_id := dictGetPy sd "agent_id" PyVal.none
    if pyTruthy signal_id && pyTruthy agent_id then
      DbCall.updateStatus signal_id "PROCESSING" :: respOutcome signal_id resp
    else []
  | _ => []

/-- Whether an exchange outcome is a rejection or a transport failure in
the sense of the spec: no response at all, or a falsy response, or a
(truthy) dict response whose `status` is not the string `"success"`. -/
def isRejection (resp : Option PyVal) : Bool :=
  match resp with
  | Option.none => true
  | some rv =>
    if pyTruthy rv then
      match rv with
      | PyVal.dict rd =>
        match dictGetPy rd "status" PyVal.none with
        | PyVal.str s => decide (s ≠ "success")
        | _ => true
      | _ => false
    else true

/-- `handle_signal_insert` (src/lib.py lines 252-264): the payload is
sanitized, forwarded through `BridgeClient.send_signal`, and a failure is
only logged (line 262).  The function has no record-update collaborator
at all, so its trace of write-backs is empty by construction. -/
def handle_signal_insert (dec : String → Option PyVal)
    (engine : SignalRequest → Option EngineResponse)
    (init : Option EngineResponse)
    (payload : List (String × PyVal)) : SendOutcome × List DbCall :=
  (send_signal dec engine init (sanitizeDict payload) "signal", [])

/-- The bytes `EngineCommunicator.send_signal` places on the wire
(main.py lines 57-63): `serialize` stands for
`json.dumps({...}).encode("utf-8")`; the serialized body is passed to
`sendall` as-is, with nothing prepended. -/
def engineSendWire (serialize : PyVal → List Nat) (signal_type : String)
    (data : PyVal) : List Nat :=
  serialize (PyVal.dict [("signal_type", PyVal.str signal_type), ("data", data)])

/-- The receive step of `EngineCommunicator.send_signal` (main.py line
67): a single `self.socket.recv(4096)`, returning at most 4096 bytes of
whatever the transport has delivered. -/
def engineRecvOnce (stream : List Nat) : List Nat := stream.take 4096

/-- Modelled from the spec: the 4-byte big-endian encoding of a length,
for the length-prefixed framing of spec section 4.3 (the stream transport
in src/ implements no framing, so the spec framing is stated here for
comparison). -/
def be32 (n : Nat) : List Nat :=
  [n / 16777216 % 256, n / 65536 % 256, n / 256 % 256, n % 256]

/-- Modelled from the spec: a framed message is the 4-byte big-endian
length of the body followed by the body. -/
def specFrame (body : List Nat) : List Nat := be32 body.length ++ body

/-- Modelled from the spec: the receiver loops until exactly `n` bytes
have been accumulated, failing only if the stream ends early. -/
def specReadExact (stream : List Nat) (n : Nat) : Option (List Nat) :=
  if n ≤ stream.length then some (stream.take n) else Option.none

mutual
/-- No string leaf (a string in value position) of the value contains the
null character.  Dict keys are structure, not leaves, matching the
recursion of `sanitize_data`. -/
def nullFree : PyVal → Bool
  | PyVal.str s => s.data.all (fun c => c != nullChar)
  | PyVal.list xs => nullFreeList xs
  | PyVal.dict kvs => nullFreeDict kvs
  | PyVal.none => true
  | PyVal.bool _ => true
  | PyVal.int _ => true

/-- `nullFree` over the elements of a list. -/
def nullFreeList : List PyVal → Bool
  | [] => true
  | v :: rest => nullFree v && nullFreeList rest

/-- `nullFree` over the values of a dict. -/
def nullFreeDict : List (String × PyVal) → Bool
  | [] => true
  | kv :: rest => nullFree kv.2 && nullFreeDict rest
end

mutual
/-- The skeleton of a value with every string leaf blanked out: two values
with the same mask agree on all structure, all dict keys and all
non-string leaves. -/
def mask : PyVal → PyVal
  | PyVal.str _ => PyVal.str ""
  | PyVal.list xs => PyVal.list (maskList xs)
  | PyVal.dict kvs => PyVal.dict (maskDict kvs)
  | PyVal.none => PyVal.none
  | PyVal.bool b => PyVal.bool b
  | PyVal.int n => PyVal.int n

/-- `mask` over the elements of a list. -/
def maskList : List PyVal → List PyVal
  | [] => []
  | v :: rest => mask v :: maskList rest

/-- `mask` over the values of a dict. -/
def maskDict : List (String × PyVal) → List (String × PyVal)
  | [] => []
  | kv :: rest => (kv.1, mask kv.2) :: maskDict rest
end

/-- The spec section 8 example event: a signals-table insert whose record
carries `global_uuid` g1, `user_requested_uuid` u1, `signal_type` RUN and
an `initial_data` command for entity e1. -/
def c1Event : List (String × PyVal) :=
  [("data", PyVal.dict
    [("table", PyVal.str "signals"),
     ("type", PyVal.str "INSERT"),
     ("record", PyVal.dict
       [("global_uuid", PyVal.str "g1"),
        ("user_requested_uuid", PyVal.str "u1"),
        ("signal_type", PyVal.str "RUN"),
        ("initial_data", PyVal.dict
          [("operation", PyVal.str "CREATE"),
           ("entity_type", PyVal.str "AGENT"),
           ("entity_uuid", PyVal.str "e1"),
           ("data", PyVal.dict [("name", PyVal.str "X")])])])])]

/-- A minimal user-facing signal-insert event that translates successfully
(a RUN signal), used to exercise the failure write-back path. -/
def c4Payload : List (String × PyVal) :=
  [("data", PyVal.dict [("record", PyVal.dict [("signal_type", PyVal.str "RUN")])])]

/-- An engine that answers every `ProcessSignal` exchange with an explicit
rejection (`success == false`). -/
def rejectEngine : SignalRequest → Option EngineResponse :=
  fun _ => some { success := false, message := "bad entity" }

/-- A signals-table event whose record has no `signal_type` field. -/
def c5Event : List (String × PyVal) :=
  [("data", PyVal.dict
    [("table", PyVal.str "signals"),
     ("record", PyVal.dict [("global_uuid", PyVal.str "g5")])])]

/-- A sync payload with entity types AGENT, STEP and the unknown FOO, and
no scope field. -/
def c6Data : PyVal :=
  PyVal.dict [("entity_types",
    PyVal.list [PyVal.str "AGENT", PyVal.str "STEP", PyVal.str "FOO"])]

/-- A signals-table RUN event whose `initial_data` is a string that does
not parse as JSON. -/
def c7Event : List (String × PyVal) :=
  [("data", PyVal.dict
    [("record", PyVal.dict
      [("signal_type", PyVal.str "RUN"),
       ("initial_data", PyVal.str "not json")])])]

/-- Whether a request carries the degraded empty initial value in the
payload slot matching its signal type: the `{"data": {}}` wrapper for RUN
and FYI, the empty sync payload (scope ALL, no uuids, no types) for SYNC. -/
def degradedEmpty (req : SignalRequest) : Bool :=
  match req.signal_type with
  | SignalType.RUN =>
    match req.run_data with
    | some (PyVal.dict [("data", PyVal.dict [])]) => true
    | _ => false
  | SignalType.SYNC =>
    match req.sync with
    | some ⟨SyncScope.ALL, [], []⟩ => true
    | _ => false
  | SignalType.FYI =>
    match req.fyi_data with
    | some (PyVal.dict [("data", PyVal.dict [])]) => true
    | _ => false

/-- Nested induction principle for `PyVal`: to prove a property of every
value it suffices to prove it at each constructor, with the inductive
hypothesis available for every element of a list and every value of a
dict. -/
def pyval_ind (P : PyVal → Prop)
    (hnone : P PyVal.none) (hbool : ∀ b, P (PyVal.bool b))
    (hint : ∀ n, P (PyVal.int n)) (hstr : ∀ s, P (PyVal.str s))
    (hlist : ∀ xs, (∀ v ∈ xs, P v) → P (PyVal.list xs))
    (hdict : ∀ kvs, (∀ kv ∈ kvs, P kv.2) → P (PyVal.dict kvs)) :
    ∀ x, P x
  | PyVal.none => hnone
  | PyVal.bool b => hbool b
  | PyVal.int n => hint n
  | PyVal.str s => hstr s
  | PyVal.list xs => hlist xs (fun v hv =>
      pyval_ind P hnone hbool hint hstr hlist hdict v)
  | PyVal.dict kvs => hdict kvs (fun kv hkv =>
      pyval_ind P hnone hbool hint hstr hlist hdict kv.2)
termination_by x => sizeOf x
decreasing_by
  · simp_wf
    have h := List.sizeOf_lt_of_mem hv
    omega
  · simp_wf
    have h := List.sizeOf_lt_of_mem hkv
    obtain ⟨a, b⟩ := kv
    simp only [Prod.mk.sizeOf_spec] at h ⊢
    omega

theorem stripNulls_all (s : String) :
    ((stripNulls s).data.all (fun c => c != nullChar)) = true := by
  show ((s.data.filter (fun c => c != nullChar)).all (fun c => c != nullChar)) = true
  rw [List.all_eq_true]
  intro c hc
  exact (List.mem_filter.mp hc).2

theorem filter_ne_null_idem (l : List Char) :
    (l.filter (fun c => c != nullChar)).filter (fun c => c != nullChar)
      = l.filter (fun c => c != nullChar) := by
  induction l with
  | nil => rfl
  | cons c rest ih =>
    by_cases h : (c != nullChar) = true
    · simp [List.filter_cons, h, ih]
    · simp [List.filter_cons, h, ih]

theorem stripNulls_idem (s : String) : stripNulls (stripNulls s) = stripNulls s :=
  congrArg String.mk (filter_ne_null_idem s.data)

theorem sanitizeList_idem_of (xs : List PyVal)
    (ih : ∀ v ∈ xs, sanitize_data (sanitize_data v) = sanitize_data v) :
    sanitizeList (sanitizeList xs) = sanitizeList xs := by
  induction xs with
  | nil => simp [sanitizeList]
  | cons v rest ihr =>
    simp only [sanitizeList]
    rw [ih v (List.mem_cons_self v rest),
        ihr (fun w hw => ih w (List.mem_cons_of_mem v hw))]

theorem sanitizeDict_idem_of (kvs : List (String × PyVal))
    (ih : ∀ kv ∈ kvs, sanitize_data (sanitize_data kv.2) = sanitize_data kv.2) :
    sanitizeDict (sanitizeDict kvs) = sanitizeDict kvs := by
  induction kvs with
  | nil => simp [sanitizeDict]
  | cons kv rest ihr =>
    obtain ⟨k, v⟩ := kv
    simp only [sanitizeDict]
    rw [ih (k, v) (List.mem_cons_self _ _),
        ihr (fun w hw => ih w (List.mem_cons_of_mem _ hw))]

/-- C9: sanitization is idempotent: for every value x,
`sanitize_data (sanitize_data x)` equals `sanitize_data x`. -/
theorem c9_sanitize_idempotent (x : PyVal) :
    sanitize_data (sanitize_data x) = sanitize_data x := by
  induction x using pyval_ind with
  | hnone => simp [sanitize_data]
  | hbool b => simp [sanitize_data]
  | hint n => simp [sanitize_data]
  | hstr s =>
    simp only [sanitize_data]
    exact congrArg PyVal.str (stripNulls_idem s)
  | hlist xs ih =>
    simp only [sanitize_data]
    exact congrArg PyVal.list (sanitizeList_idem_of xs ih)
  | hdict kvs ih =>
    simp only [sanitize_data]
    exact congrArg PyVal.dict (sanitizeDict_idem_of kvs ih)

theorem nullFreeList_sanitize (xs : List PyVal)
    (ih : ∀ v ∈ xs, nullFree (sanitize_data v) = true) :
    nullFreeList (sanitizeList xs) = true := by
  induction xs with
  | nil => simp [sanitizeList, nullFreeList]
  | cons v rest ihr =>
    simp only [sanitizeList, nullFreeList]
    rw [ih v (List.mem_cons_self v rest),
        ihr (fun w hw => ih w (List.mem_cons_of_mem v hw))]
    rfl

theorem nullFreeDict_sanitize (kvs : List (String × PyVal))
    (ih : ∀ kv ∈ kvs, nullFree (sanitize_data kv.2) = true) :
    nullFreeDict (sanitizeDict kvs) = true := by
  induction kvs with
  | nil => simp [sanitizeDict, nullFreeDict]
  | cons kv rest ihr =>
    obtain ⟨k, v⟩ := kv
    simp only [sanitizeDict, nullFreeDict]
    rw [ih (k, v) (List.mem_cons_self _ _),
        ihr (fun w hw => ih w (List.mem_cons_of_mem _ hw))]
    rfl

theorem maskList_sanitize (xs : List PyVal)
    (ih : ∀ v ∈ xs, mask (sanitize_data v) = mask v) :
    maskList (sanitizeList xs) = maskList xs := by
  induction xs with
  | nil => simp [sanitizeList]
  | cons v rest ihr =>
    simp only [sanitizeList, maskList]
    rw [ih v (List.mem_cons_self v rest),
        ihr (fun w hw => ih w (List.mem_cons_of_mem v hw))]

theorem maskDict_sanitize (kvs : List (String × PyVal))
    (ih : ∀ kv ∈ kvs, mask (sanitize_data kv.2) = mask kv.2) :
    maskDict (sanitizeDict kvs) = maskDict kvs := by
  induction kvs with
  | nil => simp [sanitizeDict]
  | cons kv rest ihr =>
    obtain ⟨k, v⟩ := kv
    simp only [sanitizeDict, maskDict]
    rw [ih (k, v) (List.mem_cons_self _ _),
        ihr (fun w hw => ih w (List.mem_cons_of_mem _ hw))]

/-- C8: the Sanitizer is a pure total function over any nested value: the
output of `sanitize_data` contains no null character in any string leaf
(`nullFree`), and its mask equals the mask of the input, so all structure,
all dict keys and all non-string values pass through unchanged.  Mutation
does not arise: `sanitize_data` is a function from values to values. -/
theorem c8_sanitizer_pure_total (x : PyVal) :
    nullFree (sanitize_data x) = true ∧ mask (sanitize_data x) = mask x := by
  induction x using pyval_ind with
  | hnone => exact ⟨by simp [sanitize_data, nullFree], by simp [sanitize_data]⟩
  | hbool b => exact ⟨by simp [sanitize_data, nullFree], by simp [sanitize_data]⟩
  | hint n => exact ⟨by simp [sanitize_data, nullFree], by simp [sanitize_data]⟩
  | hstr s =>
    constructor
    · simp only [sanitize_data, nullFree]
      exact stripNulls_all s
    · simp [sanitize_data, mask]
  | hlist xs ih =>
    constructor
    · simp only [sanitize_data, nullFree]
      exact nullFreeList_sanitize xs (fun v hv => (ih v hv).1)
    · simp only [sanitize_data, mask]
      exact congrArg PyVal.list (maskList_sanitize xs (fun v hv => (ih v hv).2))
  | hdict kvs ih =>
    constructor
    · simp only [sanitize_data, nullFree]
      exact nullFreeDict_sanitize kvs (fun kv hkv => (ih kv hkv).1)
    · simp only [sanitize_data, mask]
      exact congrArg PyVal.dict (maskDict_sanitize kvs (fun kv hkv => (ih kv hkv).2))

/-- C1: evaluating `create_signal_request` at the spec section 8 example
event shows the constructed request keeps the proto3 default empty string
in both envelope uuid fields instead of copying `global_uuid` g1 and
`user_requested_uuid` u1 from the record, contradicting the claim (and
the repository tests, which assert equality with the record values). -/
theorem c1_correlation_left_empty :
    ∃ req, create_signal_request (fun _ => Option.none) c1Event = some req ∧
      req.signal_type = SignalType.RUN ∧
      req.global_uuid = "" ∧ req.user_requested_uuid = "" ∧
      req.global_uuid ≠ "g1" ∧ req.user_requested_uuid ≠ "u1" := by
  refine ⟨_, rfl, rfl, rfl, rfl, ?_, ?_⟩ <;> decide

/-- C2: evaluating `create_sync_payload` at a payload whose scope field is
present but invalid shows the translation succeeds with the silently
substituted default `ALL`, contradicting the claim that a present-but-
invalid scope fails with a validation error. -/
theorem c2_invalid_scope_silently_defaults :
    create_sync_payload (PyVal.dict [("scope", PyVal.str "BOGUS")]) =
      some { scope := SyncScope.ALL, entity_uuids := [], entity_types := [] } := rfl

/-- C3: the stream transport of `EngineCommunicator.send_signal` writes
the serialized body with no 4-byte big-endian length prefix, and its
single `recv(4096)` cannot return a 5000-byte response in full,
contradicting the claimed framing and read-until-declared-length loop. -/
theorem c3_no_length_prefix_single_bounded_read :
    engineSendWire (fun _ => [123, 125]) "DB_SYNC" (PyVal.dict []) ≠
      specFrame [123, 125] ∧
    engineRecvOnce (List.replicate 5000 7) ≠ List.replicate 5000 7 := by
  constructor
  · decide
  · intro h
    have hlen := congrArg List.length h
    simp only [engineRecvOnce, List.length_take, List.length_replicate] at hlen
    omega

/-- C10: a payload dict containing the key `"server-init"` bypasses
translation entirely: `send_signal` performs no `create_signal_request`
call and no `ProcessSignal` exchange, performs exactly one `InitServer`
exchange, and returns true exactly when that exchange yields a response
whose success field is true. -/
theorem c10_server_init_bypass (dec : String → Option PyVal)
    (engine : SignalRequest → Option EngineResponse)
    (init : Option EngineResponse) (data : List (String × PyVal)) (m : String)
    (h : (lookupKey data "server-init").isSome = true) :
    (send_signal dec engine init data m).translateCalls = 0 ∧
    (send_signal dec engine init data m).processCalls = 0 ∧
    (send_signal dec engine init data m).initCalls = 1 ∧
    ((send_signal dec engine init data m).result = true ↔
      ∃ r, init = some r ∧ r.success = true) := by
  cases init with
  | none =>
    refine ⟨by simp [send_signal, h], by simp [send_signal, h],
            by simp [send_signal, h], ?_⟩
    simp [send_signal, h]
  | some r =>
    refine ⟨by simp [send_signal, h], by simp [send_signal, h],
            by simp [send_signal, h], ?_⟩
    simp [send_signal, h]

/-- An engine response reporting success, for the server-init witness. -/
def okInit : Option EngineResponse := some { success := true }

/-- A payload dict carrying the `"server-init"` key. -/
def c10Data : List (String × PyVal) := [("server-init", PyVal.bool true)]

theorem c10_server_init_bypass_witness :
    (lookupKey c10Data "server-init").isSome = true ∧
    ((send_signal (fun _ => Option.none) rejectEngine okInit c10Data "signal").translateCalls = 0 ∧
     (send_signal (fun _ => Option.none) rejectEngine okInit c10Data "signal").processCalls = 0 ∧
     (send_signal (fun _ => Option.none) rejectEngine okInit c10Data "signal").initCalls = 1 ∧
     ((send_signal (fun _ => Option.none) rejectEngine okInit c10Data "signal").result = true ↔
       ∃ r, okInit = some r ∧ r.success = true)) :=
  ⟨by decide,
   c10_server_init_bypass (fun _ => Option.none) rejectEngine okInit c10Data "signal" (by decide)⟩

/-- C5: an event with a signals-table record that lacks the `signal_type`
field fails translation (`create_signal_request` returns `None`),
`send_signal` returns false, and no `ProcessSignal` exchange happens. -/
theorem c5_missing_signal_type_drops_event (dec : String → Option PyVal)
    (engine : SignalRequest → Option EngineResponse)
    (init : Option EngineResponse) (ev : List (String × PyVal))
    (r : List (String × PyVal))
    (hrec : getRecord ev = PyVal.dict r) (hne : r ≠ [])
    (hnost : lookupKey r "signal_type" = Option.none)
    (hnosi : lookupKey ev "server-init" = Option.none) :
    create_signal_request dec ev = Option.none ∧
    (send_signal dec engine init ev "signal").result = false ∧
    (send_signal dec engine init ev "signal").processCalls = 0 := by
  have ht : pyTruthy (PyVal.dict r) = true := by
    cases r with
    | nil => exact absurd rfl hne
    | cons a l => rfl
  have hrg : recordGet (PyVal.dict r) "signal_type" (PyVal.str "") = PyVal.str "" := by
    simp [recordGet, hnost]
  have hcsr : create_signal_request dec ev = Option.none := by
    simp only [create_signal_request, hrec, ht, if_true, hrg]
    rfl
  refine ⟨hcsr, ?_, ?_⟩ <;> simp [send_signal, hnosi, hcsr]

theorem c5_missing_signal_type_drops_event_witness :
    getRecord c5Event = PyVal.dict [("global_uuid", PyVal.str "g5")] ∧
    create_signal_request (fun _ => Option.none) c5Event = Option.none ∧
    (send_signal (fun _ => Option.none) rejectEngine okInit c5Event "signal").result = false ∧
    (send_signal (fun _ => Option.none) rejectEngine okInit c5Event "signal").processCalls = 0 := by
  have h := c5_missing_signal_type_drops_event (fun _ => Option.none) rejectEngine okInit
    c5Event [("global_uuid", PyVal.str "g5")] rfl (List.cons_ne_nil _ _) rfl rfl
  exact ⟨rfl, h.1, h.2.1, h.2.2⟩

theorem collectEntityTypes_strings (ets : List PyVal)
    (h : ∀ v ∈ ets, ∃ s, v = PyVal.str s) :
    collectEntityTypes ets = some (ets.filterMap (fun v =>
      match v with
      | PyVal.str s => parseEntityType (pyUpper s)
      | _ => Option.none)) := by
  induction ets with
  | nil => rfl
  | cons v rest ih =>
    obtain ⟨s, rfl⟩ := h v (List.mem_cons_self v rest)
    have ih2 := ih (fun w hw => h w (List.mem_cons_of_mem _ hw))
    cases hp : parseEntityType (pyUpper s) with
    | none => simp [collectEntityTypes, hp, ih2, List.filterMap_cons]
    | some et => simp [collectEntityTypes, hp, ih2, List.filterMap_cons]

/-- C6: `Sync.entity_types` is validated element-wise: when the scope
field holds a string (or is absent), the uuid field is iterable, and the
entity types are a list of strings, `create_sync_payload` succeeds and its
entity types are exactly the elements whose upper-cased form matches the
`EntityType` table, in order, with unknown elements dropped individually. -/
theorem c6_entity_types_elementwise (d : PyVal) (ets : List PyVal)
    (hscope : ∃ s, recordGet d "scope" (PyVal.str "ALL") = PyVal.str s)
    (huuids : ∃ us, pyIter (recordGet d "entity_uuids" (PyVal.list [])) = some us)
    (hets : recordGet d "entity_types" (PyVal.list []) = PyVal.list ets)
    (hstr : ∀ v ∈ ets, ∃ s, v = PyVal.str s) :
    ∃ p, create_sync_payload d = some p ∧
      p.entity_types = ets.filterMap (fun v =>
        match v with
        | PyVal.str s => parseEntityType (pyUpper s)
        | _ => Option.none) := by
  obtain ⟨s, hs⟩ := hscope
  obtain ⟨us, hu⟩ := huuids
  have hM := collectEntityTypes_strings ets hstr
  simp only [create_sync_payload, hs, hets]
  rw [hu]
  dsimp only [pyIter]
  rw [hM]
  exact ⟨_, rfl, rfl⟩

theorem c6_entity_types_elementwise_witness :
    recordGet c6Data "entity_types" (PyVal.list []) =
      PyVal.list [PyVal.str "AGENT", PyVal.str "STEP", PyVal.str "FOO"] ∧
    ∃ p, create_sync_payload c6Data = some p ∧
      p.scope = SyncScope.ALL ∧
      p.entity_types = [EntityType.AGENT, EntityType.STEP] := by
  have h := c6_entity_types_elementwise c6Data
    [PyVal.str "AGENT", PyVal.str "STEP", PyVal.str "FOO"]
    ⟨"ALL", rfl⟩ ⟨[], rfl⟩ rfl
    (by
      intro v hv
      simp only [List.mem_cons, List.not_mem_nil, or_false] at hv
      rcases hv with rfl | rfl | rfl
      · exact ⟨"AGENT", rfl⟩
      · exact ⟨"STEP", rfl⟩
      · exact ⟨"FOO", rfl⟩)
  obtain ⟨p, hp, hpe⟩ := h
  refine ⟨rfl, p, hp, ?_, ?_⟩
  · have : create_sync_payload c6Data =
        some { scope := SyncScope.ALL, entity_uuids := [],
               entity_types := [EntityType.AGENT, EntityType.STEP] } := rfl
    rw [this] at hp
    cases hp
    rfl
  · rw [hpe]
    rfl

/-- C7: for every event whose record is present, whose signal type matches
the symbol table, and whose `initial_data` is a string the JSON decoder
rejects, translation does not fail: `create_signal_request` still returns
a complete request, and the payload slot for its signal type carries the
degraded empty value. -/
theorem c7_bad_json_degrades_not_fatal (dec : String → Option PyVal)
    (ev : List (String × PyVal)) (r : List (String × PyVal)) (st js : String)
    (hrec : getRecord ev = PyVal.dict r) (hne : r ≠ [])
    (hst : recordGet (PyVal.dict r) "signal_type" (PyVal.str "") = PyVal.str st)
    (hty : (parseSignalType (pyUpper st)).isSome = true)
    (hinit : recordGet (PyVal.dict r) "initial_data" (PyVal.dict []) = PyVal.str js)
    (hdec : dec js = Option.none) :
    ∃ req, create_signal_request dec ev = some req ∧ degradedEmpty req = true := by
  have ht : pyTruthy (PyVal.dict r) = true := by
    cases r with
    | nil => exact absurd rfl hne
    | cons a l => rfl
  have hup : pyUpper st = "RUN" ∨ pyUpper st = "SYNC" ∨ pyUpper st = "FYI" := by
    unfold parseSignalType at hty
    by_cases h1 : pyUpper st = "RUN"
    · exact Or.inl h1
    · rw [if_neg h1] at hty
      by_cases h2 : pyUpper st = "SYNC"
      · exact Or.inr (Or.inl h2)
      · rw [if_neg h2] at hty
        by_cases h3 : pyUpper st = "FYI"
        · exact Or.inr (Or.inr h3)
        · rw [if_neg h3] at hty
          cases hty
  rcases hup with hup | hup | hup <;>
    · simp only [create_signal_request, hrec, ht, if_true, hst, hup, hinit, hdec]
      exact ⟨_, rfl, rfl⟩

theorem c7_bad_json_degrades_not_fatal_witness :
    recordGet (PyVal.dict [("signal_type", PyVal.str "RUN"),
        ("initial_data", PyVal.str "not json")]) "initial_data" (PyVal.dict []) =
      PyVal.str "not json" ∧
    ∃ req, create_signal_request (fun _ => Option.none) c7Event = some req ∧
      degradedEmpty req = true := by
  refine ⟨rfl, ?_⟩
  exact c7_bad_json_degrades_not_fatal (fun _ => Option.none) c7Event
    [("signal_type", PyVal.str "RUN"), ("initial_data", PyVal.str "not json")]
    "RUN" "not json" rfl (List.cons_ne_nil _ _) rfl (by decide) rfl rfl

theorem respOutcome_marks_failed (sid : PyVal) (resp : Option PyVal)
    (h : isRejection resp = true) :
    countErr (respOutcome sid resp) = 1 := by
  cases resp with
  | none => rfl
  | some rv =>
    simp only [isRejection] at h
    by_cases ht : pyTruthy rv = true
    · rw [if_pos ht] at h
      simp only [respOutcome, Option.getD, ht, if_pos]
      cases rv with
      | dict rd =>
        dsimp only at h ⊢
        cases hst : dictGetPy rd "status" PyVal.none with
        | str s =>
          rw [hst] at h
          dsimp only at h ⊢
          have hs : s ≠ "success" := of_decide_eq_true h
          rw [if_neg hs]
          rfl
        | none => rfl
        | bool b => rfl
        | int n => rfl
        | list xs => rfl
        | dict kvs2 => rfl
      | none => cases h
      | bool b => cases h
      | int n => cases h
      | str s => cases h
      | list xs => cases h
    · have ht2 : pyTruthy rv = false := by
        cases hb : pyTruthy rv
        · rfl
        · exact absurd hb ht
      simp only [respOutcome, Option.getD, ht2]
      rfl

/-- C4 amended: in the stream-transport handler
(`SupabaseHandler.handle_new_signal`), every signal-insert payload whose
record carries truthy `id` and `agent_id`, and whose exchange ends in
rejection or transport failure, produces exactly one markFailed
(`update_signal_error`) write-back. -/
theorem c4_stream_handler_marks_failed_once (payload : List (String × PyVal))
    (sd : List (String × PyVal)) (resp : Option PyVal)
    (hnew : dictGetPy payload "new" (PyVal.dict []) = PyVal.dict sd)
    (hid : pyTruthy (dictGetPy sd "id" PyVal.none) = true)
    (haid : pyTruthy (dictGetPy sd "agent_id" PyVal.none) = true)
    (hrej : isRejection resp = true) :
    countErr (handle_new_signal payload resp) = 1 := by
  simp only [handle_new_signal, hnew, hid, haid, Bool.and_self, if_pos]
  have h := respOutcome_marks_failed (dictGetPy sd "id" PyVal.none) resp hrej
  simpa [countErr, isErrCall, List.filter] using h

theorem c4_stream_handler_marks_failed_once_witness :
    dictGetPy [("new", PyVal.dict [("id", PyVal.int 1), ("agent_id", PyVal.int 7)])]
      "new" (PyVal.dict []) = PyVal.dict [("id", PyVal.int 1), ("agent_id", PyVal.int 7)] ∧
    countErr (handle_new_signal
      [("new", PyVal.dict [("id", PyVal.int 1), ("agent_id", PyVal.int 7)])]
      Option.none) = 1 :=
  ⟨rfl,
   c4_stream_handler_marks_failed_once
     [("new", PyVal.dict [("id", PyVal.int 1), ("agent_id", PyVal.int 7)])]
     [("id", PyVal.int 1), ("agent_id", PyVal.int 7)] Option.none
     rfl (by decide) (by decide) rfl⟩

/-- C4 counterexample: the gRPC-iteration handler (`handle_signal_insert`
in src/lib.py) forwards a valid RUN event, the engine rejects the exchange
(`success == false`, so the send result is false and exactly one
`ProcessSignal` call happened), yet the handler issues zero markFailed
write-backs: the failure is only logged, refuting the claim that
markFailed is called exactly once for every rejected user-facing signal
insert. -/
theorem c4_grpc_handler_never_marks_failed :
    (handle_signal_insert (fun _ => Option.none) rejectEngine Option.none c4Payload).1.result = false ∧
    (handle_signal_insert (fun _ => Option.none) rejectEngine Option.none c4Payload).1.processCalls = 1 ∧
    countErr (handle_signal_insert (fun _ => Option.none) rejectEngine Option.none c4Payload).2 = 0 := by
  have e1 : stripNulls "RUN" = "RUN" := by decide
  have hsan : sanitizeDict c4Payload = c4Payload := by
    simp [c4Payload, sanitizeDict, sanitize_data, e1]
  refine ⟨?_, ?_, rfl⟩ <;>
    · show _ = _
      simp only [handle_signal_insert, hsan]
      rfl
